import Mathlib

/-!
Verification of the Target RedCircle API client and its HTTP controllers.

The development shallowly embeds the TypeScript sources:
  * `src/services/target/api.ts` (API client, error classifier, helpers),
  * the product controllers file (`getProductByTcin`, `getProductByUpc`,
    `searchProductsHandler`).

JavaScript strings are modelled as `List Char`.  Both controller and service
export a function named `getProductByTcin`; the controller versions carry a
`Handler` suffix here.  The cache utility module (`utils/cache.ts`) is not
part of the sources; its functions are modelled from the specification and
are marked as such in their doc comments.
-/

namespace TargetApi

/-- JavaScript strings, modelled as lists of characters. -/
abbrev Str := List Char

/-- Characters removed by JavaScript `String.prototype.trim` (the common
WhiteSpace and LineTerminator code points: TAB, LF, VT, FF, CR, SP, NBSP). -/
def jsIsWhitespace (c : Char) : Bool :=
  c = ' ' || c = '\t' || c = '\n' || c = '\x0d' || c = '\x0b' || c = '\x0c' ||
  c = Char.ofNat 160

/-- JavaScript `s.trim()`: strip leading and trailing whitespace. -/
def jsTrim (s : Str) : Str :=
  ((s.dropWhile jsIsWhitespace).reverse.dropWhile jsIsWhitespace).reverse

-- ============================================================================
-- Error model (`handleApiError` in api.ts)
-- ============================================================================

/-- The `code` field of an `ApiError`.  In the source it is typed
`string | number`: every branch passes a string constant except the final
`status || 'NETWORK_ERROR'`, which passes the numeric HTTP status when the
response carried one. -/
inductive ApiCode
  | named (s : Str)
  | httpStatus (n : Nat)
deriving DecidableEq

/-- The `ApiError` produced by `handleApiError`.  The `details` object of the
source is flattened into optional fields: each constructor site populates
`context` plus at most one of `status`, `retryAfter`, `originalError`. -/
structure ApiError where
  message : Str
  code : ApiCode
  context : Option Str
  status : Option Nat
  retryAfter : Option Str
  originalError : Option Str
deriving DecidableEq

/-- The part of an axios error response inspected by `handleApiError`:
`response.status`, the body error code `data.error?.code` (the duck-typed
guard `isErrorResponse` plus optional chaining is modelled by the `Option`),
and the `retry-after` header. -/
structure AxiosResponse where
  status : Nat
  errorCode : Option Str
  retryAfter : Option Str
deriving DecidableEq

/-- A thrown JavaScript error as classified by `axios.isAxiosError`: an axios
error with its message and optional response, or any other thrown value
(carried as its string rendering). -/
inductive JsError
  | axios (message : Str) (response : Option AxiosResponse)
  | other (description : Str)
deriving DecidableEq

/-- Transform a thrown error into an `ApiError`
(`handleApiError` in api.ts, lines 62-106). -/
def handleApiError (error : JsError) (context : Option Str) : ApiError :=
  match error with
  | .axios msg resp =>
    let status : Option Nat := resp.map (fun r => r.status)
    let errorCode : Option Str := resp.bind (fun r => r.errorCode)
    if status = some 404 ∨ errorCode = some ("PRODUCT_NOT_FOUND".data) then
      { message := ("Product not found".data) ++
          (match context with
           | some c => if c = [] then [] else (": ".data) ++ c
           | none => []),
        code := .named ("PRODUCT_NOT_FOUND".data),
        context := context, status := status,
        retryAfter := none, originalError := none }
    else if status = some 429 ∨ errorCode = some ("RATE_LIMIT_EXCEEDED".data) then
      { message := ("Rate limit exceeded".data),
        code := .named ("RATE_LIMIT_EXCEEDED".data),
        context := context, status := none,
        retryAfter := resp.bind (fun r => r.retryAfter), originalError := none }
    else if status = some 401 ∨ status = some 403 then
      { message := ("Invalid API key or unauthorized".data),
        code := .named ("UNAUTHORIZED".data),
        context := context, status := status,
        retryAfter := none, originalError := none }
    else
      { message := msg,
        code := match status with
          | some s => if s = 0 then .named ("NETWORK_ERROR".data) else .httpStatus s
          | none => .named ("NETWORK_ERROR".data),
        context := context, status := none,
        retryAfter := none, originalError := some msg }
  | .other d =>
    { message := ("Unknown error occurred".data),
      code := .named ("UNKNOWN_ERROR".data),
      context := context, status := none,
      retryAfter := none, originalError := some d }

-- ============================================================================
-- Helper functions (api.ts lines 563-590)
-- ============================================================================

/-- One attempt of the regex `/\/A-(\d{8})/` at the head of the list: succeed
exactly when the list starts with `/A-` followed by eight decimal digits, and
return those eight digits. -/
def matchTcinAt : Str → Option Str
  | c1 :: c2 :: c3 :: d1 :: d2 :: d3 :: d4 :: d5 :: d6 :: d7 :: d8 :: _ =>
    if c1 = '/' ∧ c2 = 'A' ∧ c3 = '-' ∧
       d1.isDigit = true ∧ d2.isDigit = true ∧ d3.isDigit = true ∧
       d4.isDigit = true ∧ d5.isDigit = true ∧ d6.isDigit = true ∧
       d7.isDigit = true ∧ d8.isDigit = true
    then some [d1, d2, d3, d4, d5, d6, d7, d8]
    else none
  | _ => none

/-- Extract a TCIN from a Target product URL: leftmost match of
`/\/A-(\d{8})/`, or `null` (`extractTcinFromUrl` in api.ts). -/
def extractTcinFromUrl : Str → Option Str
  | [] => none
  | c :: rest =>
    match matchTcinAt (c :: rest) with
    | some ds => some ds
    | none => extractTcinFromUrl rest

/-- Generate a Target product page URL (`generateProductUrl` in api.ts). -/
def generateProductUrl (tcin : Str) : Str :=
  ("https://www.target.com/p/-/A-".data) ++ tcin

/-- Validate TCIN format, regex `/^\d{8,10}$/` (`isValidTcin` in api.ts). -/
def isValidTcin (tcin : Str) : Bool :=
  decide (8 ≤ tcin.length) && decide (tcin.length ≤ 10) && tcin.all Char.isDigit

/-- The GTIN validation of the UPC controller, regex `/^\d{8,14}$/`. -/
def isValidGtin (gtin : Str) : Bool :=
  decide (8 ≤ gtin.length) && decide (gtin.length ≤ 14) && gtin.all Char.isDigit

-- ============================================================================
-- Cache store (utils/cache.ts is not part of the sources; modelled from spec)
-- ============================================================================

/-- Modelled from the spec: a TTL cache entry is a key, an opaque value and an
expiry timestamp (`utils/cache.ts` is missing from the sources).  A cache
instance is the list of its entries; time is an abstract `Nat`. -/
abbrev Cache (α : Type) := List (Str × α × Nat)

/-- Modelled from the spec: `getCachedValue` returns the stored value while
the entry is live and absence once its age exceeds the TTL, checked lazily at
read time (spec section 4.1; `utils/cache.ts` is missing from the sources). -/
def getCachedValue {α : Type} : Cache α → Str → Nat → Option α
  | [], _, _ => none
  | (k', v, exp) :: rest, k, now =>
    if k' = k then (if now ≤ exp then some v else none)
    else getCachedValue rest k now

/-- Modelled from the spec: `setCachedValue` stores a value under a key with
expiry `now + ttl`, replacing any previous entry for that key
(`utils/cache.ts` is missing from the sources). -/
def setCachedValue {α : Type} : Cache α → Str → α → Nat → Nat → Cache α
  | [], k, v, now, ttl => [(k, v, now + ttl)]
  | (k', v', exp) :: rest, k, v, now, ttl =>
    if k' = k then (k, v, now + ttl) :: rest
    else (k', v', exp) :: setCachedValue rest k v now ttl

/-- Modelled from the spec: product-detail entries use a 1 hour TTL
(comment "Cache the result (1 hour TTL)" in api.ts), in milliseconds. -/
def productCacheTTL : Nat := 3600000

/-- Modelled from the spec: search entries use a 5 minute TTL
(comment "5 minutes TTL for search results" in api.ts), in milliseconds. -/
def searchCacheTTL : Nat := 300000

/-- Modelled from the spec: the stock cache TTL is a tuning choice (spec
section 4.1); any fixed constant represents it. -/
def stockCacheTTL : Nat := 60000

/-- Modelled from the spec: `generateProductCacheKey` derives the product
cache key deterministically from the TCIN alone (`utils/cache.ts` is missing
from the sources). -/
def generateProductCacheKey (tcin : Str) : Str :=
  ("product_".data) ++ tcin

/-- Modelled from the spec: `generateProductStockCacheKey` derives the stock
cache key deterministically from the zip code and the TCIN alone
(`utils/cache.ts` is missing from the sources). -/
def generateProductStockCacheKey (zipCode tcin : Str) : Str :=
  ("stock_".data) ++ zipCode ++ ("_".data) ++ tcin

-- ============================================================================
-- Store Stock API (api.ts lines 132-258)
-- ============================================================================

/-- The query parameters of a `checkStoreStock` upstream request (api.ts lines
156-161).  The `_storeId` argument is in scope at the call site but the
parameter object never mentions it. -/
def storeStockParams (apiKey tcin zipCode : Str) (_storeId : Option Str) :
    List (Str × Str) :=
  [(("api_key".data), apiKey),
   (("type".data), ("store_stock".data)),
   (("tcin".data), tcin),
   (("store_stock_zipcode".data), zipCode)]

/-- Check store stock for a single TCIN (`checkStoreStock` in api.ts).  The
upstream HTTP GET is an oracle from query parameters to a response or a thrown
error; the function returns the classified result, the updated stock cache,
and whether an upstream request was issued. -/
def checkStoreStock {α : Type} (upstream : List (Str × Str) → Except JsError α)
    (apiKey tcin zipCode : Str) (_storeId : Option Str) (skipCache : Bool)
    (stockCache : Cache α) (now : Nat) :
    Except ApiError α × Cache α × Bool :=
  let cacheKey := generateProductStockCacheKey zipCode tcin
  match (if skipCache then none else getCachedValue stockCache cacheKey now) with
  | some cached => (.ok cached, stockCache, false)
  | none =>
    match upstream (storeStockParams apiKey tcin zipCode _storeId) with
    | .ok data => (.ok data, setCachedValue stockCache cacheKey data now stockCacheTTL, true)
    | .error e => (.error (handleApiError e (some (("TCIN ".data) ++ tcin))), stockCache, true)

-- ============================================================================
-- Bulk aggregation (api.ts lines 228-257 and 335-360)
-- ============================================================================

/-- JavaScript `Map.prototype.set`: replace the value of an existing key in
place, otherwise append the new entry. -/
def mapSet {α : Type} : List (Str × α) → Str → α → List (Str × α)
  | [], k, v => [(k, v)]
  | (k', v') :: rest, k, v =>
    if k' = k then (k, v) :: rest else (k', v') :: mapSet rest k v

/-- The keys of a JavaScript `Map` modelled as an association list. -/
def mapKeys {α : Type} (m : List (Str × α)) : List Str :=
  m.map Prod.fst

/-- JavaScript `Number(tcin).toString()` guarded by `!isNaN(Number(tcin))`,
modelled for identifier strings: a string of decimal digits parses to its
numeric value (the empty string to 0) and prints in canonical decimal form;
other identifier strings are treated as NaN and yield no key. -/
def canonicalNumericKey (t : Str) : Option Str :=
  if t.all Char.isDigit then
    some ((Nat.repr (t.foldl (fun n c => 10 * n + (c.toNat - 48)) 0)).data)
  else none

/-- One iteration of the result-map construction shared by
`checkBulkStoreStock` and `getBulkProducts`: store the successful result under
the identifier, again under `tcin.toString()` (identical for a string), and
under its canonical decimal form when the identifier is numeric. -/
def bulkInsert {α : Type} (m : List (Str × α)) (tcin : Str) (v : α) :
    List (Str × α) :=
  let m1 := mapSet m tcin v
  let m2 := mapSet m1 tcin v
  match canonicalNumericKey tcin with
  | some k => mapSet m2 k v
  | none => m2

/-- Fold the per-item outcomes into the result map, skipping failed items
(the `results.forEach` loops of api.ts lines 246-255 and 350-358). -/
def bulkBuild {α : Type} (acc : List (Str × α)) :
    List (Str × Option α) → List (Str × α)
  | [] => acc
  | (tcin, some v) :: rest => bulkBuild (bulkInsert acc tcin v) rest
  | (_, none) :: rest => bulkBuild acc rest

/-- Check store stock for multiple TCINs (`checkBulkStoreStock` in api.ts).
The per-item call to `checkStoreStock` is an oracle from the identifier to
its outcome (`none` models a caught per-item error); the try/catch around
each item makes the whole operation total. -/
def checkBulkStoreStock {α : Type} (item : Str → Option α) (tcins : List Str) :
    List (Str × α) :=
  bulkBuild [] (tcins.map (fun tcin => (tcin, item tcin)))

/-- Get multiple products (`getBulkProducts` in api.ts); identical aggregation
over the per-item `getProductByTcin` outcome. -/
def getBulkProducts {α : Type} (item : Str → Option α) (tcins : List Str) :
    List (Str × α) :=
  bulkBuild [] (tcins.map (fun tcin => (tcin, item tcin)))

-- ============================================================================
-- Product Information API (api.ts lines 278-318)
-- ============================================================================

/-- The query parameters of a `getProductByTcin` upstream request (api.ts
lines 295-299). -/
def productParams (apiKey tcin : Str) : List (Str × Str) :=
  [(("api_key".data), apiKey),
   (("type".data), ("product".data)),
   (("tcin".data), tcin)]

/-- Get product details by TCIN (`getProductByTcin` service in api.ts):
consult the product cache unless `skipCache`, otherwise issue the upstream
GET, classify failures, and cache successes for 1 hour.  Returns the result,
the updated product cache, and whether an upstream request was issued. -/
def getProductByTcin {α : Type} (upstream : List (Str × Str) → Except JsError α)
    (apiKey tcin : Str) (skipCache : Bool) (productCache : Cache α) (now : Nat) :
    Except ApiError α × Cache α × Bool :=
  let cacheKey := generateProductCacheKey tcin
  match (if skipCache then none else getCachedValue productCache cacheKey now) with
  | some cached => (.ok cached, productCache, false)
  | none =>
    match upstream (productParams apiKey tcin) with
    | .ok data => (.ok data, setCachedValue productCache cacheKey data now productCacheTTL, true)
    | .error e => (.error (handleApiError e (some (("TCIN ".data) ++ tcin))), productCache, true)

-- ============================================================================
-- Product Search API (api.ts lines 499-547)
-- ============================================================================

/-- JavaScript `options?.page || 1`: absent or zero pages default to 1. -/
def jsPageOr1 (page : Option Int) : Int :=
  match page with
  | some p => if p = 0 then 1 else p
  | none => 1

/-- JavaScript `options?.sortBy || 'default'`: absent or empty sort keys
become the literal `default`. -/
def searchSortKey (sortBy : Option Str) : Str :=
  match sortBy with
  | some s => if s = [] then ("default".data) else s
  | none => ("default".data)

/-- The search cache key, template
`search_<term>_page<page>_<sortBy or default>` (api.ts lines 507-509). -/
def searchCacheKey (searchTerm : Str) (page : Int) (sortBy : Option Str) : Str :=
  ("search_".data) ++ searchTerm ++ ("_page".data) ++ (toString page).data ++
  ("_".data) ++ searchSortKey sortBy

/-- The query parameters of a `searchProducts` upstream request (api.ts lines
517-526); `sort_by` is added only when `sortBy` is truthy. -/
def searchParams (apiKey searchTerm : Str) (page : Int) (sortBy : Option Str) :
    List (Str × Str) :=
  [(("api_key".data), apiKey),
   (("type".data), ("search".data)),
   (("search_term".data), searchTerm),
   (("page".data), (toString page).data)] ++
  (match sortBy with
   | some s => if s = [] then [] else [(("sort_by".data), s)]
   | none => [])

/-- Search for products (`searchProducts` in api.ts): default the page,
consult the product cache under the search cache key unless `skipCache`,
otherwise issue the upstream GET, classify failures, and cache successes for
5 minutes. -/
def searchProducts {α : Type} (upstream : List (Str × Str) → Except JsError α)
    (apiKey searchTerm : Str) (pageOpt : Option Int) (sortBy : Option Str)
    (skipCache : Bool) (productCache : Cache α) (now : Nat) :
    Except ApiError α × Cache α × Bool :=
  let page := jsPageOr1 pageOpt
  let cacheKey := searchCacheKey searchTerm page sortBy
  match (if skipCache then none else getCachedValue productCache cacheKey now) with
  | some cached => (.ok cached, productCache, false)
  | none =>
    match upstream (searchParams apiKey searchTerm page sortBy) with
    | .ok data => (.ok data, setCachedValue productCache cacheKey data now searchCacheTTL, true)
    | .error e => (.error (handleApiError e (some (("Search: ".data) ++ searchTerm))), productCache, true)

-- ============================================================================
-- HTTP controllers (product controllers file)
-- ============================================================================

/-- The upstream product response body as far as the controllers inspect it:
an optional `product` field (the remaining fields — `request_info`,
`request_metadata`, `location_info` — are forwarded opaquely and elided
here). -/
structure TargetProductFullResponse (α : Type) where
  product : Option α
deriving DecidableEq

/-- The JSON response of the two product-lookup controllers: 200 with the
product, 404 with `PRODUCT_NOT_FOUND`, 400 with `VALIDATION_ERROR` (field
name and rejected value), or 500 with `INTERNAL_ERROR`. -/
inductive ProductHandlerResponse (α : Type)
  | ok (product : α)
  | notFound
  | validationError (field : Str) (rejected : Option Str)
  | internalError
deriving DecidableEq

/-- The HTTP status code sent with each product-controller response. -/
def productStatus {α : Type} : ProductHandlerResponse α → Nat
  | .ok _ => 200
  | .notFound => 404
  | .validationError _ _ => 400
  | .internalError => 500

/-- The error code carried in each product-controller error body. -/
def productErrorCode {α : Type} : ProductHandlerResponse α → Option Str
  | .ok _ => none
  | .notFound => some ("PRODUCT_NOT_FOUND".data)
  | .validationError _ _ => some ("VALIDATION_ERROR".data)
  | .internalError => some ("INTERNAL_ERROR".data)

/-- GET `/api/products/:tcin` (controller `getProductByTcin`): validate the
TCIN (`!tcin || !isValidTcin(tcin)`; an empty string is falsy), call the
service — abstracted as `fetch`, which throws only `ApiError` — and shape the
response.  The catch block maps `ValidationError` to 400 and every other
thrown error to 500; since the service never throws `ValidationError`, a
thrown `ApiError` always yields 500. -/
def getProductByTcinHandler {α : Type}
    (fetch : Str → Except ApiError (TargetProductFullResponse α))
    (tcin : Option Str) : ProductHandlerResponse α :=
  match tcin with
  | none => .validationError ("tcin".data) none
  | some t =>
    if t = [] ∨ isValidTcin t = false then .validationError ("tcin".data) (some t)
    else
      match fetch t with
      | .error _ => .internalError
      | .ok productData =>
        match productData.product with
        | none => .notFound
        | some p => .ok p

/-- GET `/api/products/upc/:gtin` (controller `getProductByUpc`): identical
shape with the GTIN validation `/^\d{8,14}$/` and the `getProductByGtin`
service abstracted as `fetch`. -/
def getProductByUpcHandler {α : Type}
    (fetch : Str → Except ApiError (TargetProductFullResponse α))
    (gtin : Option Str) : ProductHandlerResponse α :=
  match gtin with
  | none => .validationError ("gtin".data) none
  | some g =>
    if g = [] ∨ isValidGtin g = false then .validationError ("gtin".data) (some g)
    else
      match fetch g with
      | .error _ => .internalError
      | .ok productData =>
        match productData.product with
        | none => .notFound
        | some p => .ok p

/-- JavaScript `parseInt(s, 10)`: skip leading whitespace, read an optional
sign and a run of decimal digits, ignore the rest; NaN (`none`) when no digit
is read. -/
def jsParseInt10 (s : Str) : Option Int :=
  let s1 := s.dropWhile jsIsWhitespace
  let signAndRest : Int × Str :=
    match s1 with
    | '-' :: r => (-1, r)
    | '+' :: r => (1, r)
    | r => (1, r)
  let digits := signAndRest.2.takeWhile Char.isDigit
  if digits = [] then none
  else some (signAndRest.1 * (digits.foldl (fun n c => 10 * n + ((c.toNat : Int) - 48)) 0))

/-- The search response body as far as the controller inspects it: the
optional `search_results` list and the opaque `pagination` object (facets,
categories and related queries are forwarded opaquely and elided here). -/
structure TargetSearchResponse (α π : Type) where
  search_results : Option (List α)
  pagination : Option π
deriving DecidableEq

/-- The JSON response of the search controller: 200 with results, 200 with
the explicit empty payload (its three literal pagination numbers), 400 with
`VALIDATION_ERROR`, or 500 with `INTERNAL_ERROR`. -/
inductive SearchHandlerResponse (α π : Type)
  | okResults (results : List α) (pagination : Option π)
  | okEmpty (current_page total_pages total_results : Int)
  | validationError (field : Str) (rejected : Option Str)
  | internalError
deriving DecidableEq

/-- The HTTP status code sent with each search-controller response. -/
def searchStatus {α π : Type} : SearchHandlerResponse α π → Nat
  | .okResults _ _ => 200
  | .okEmpty _ _ _ => 200
  | .validationError _ _ => 400
  | .internalError => 500

/-- The `success` flag of each search-controller response body (error bodies
carry no such flag). -/
def searchSuccess {α π : Type} : SearchHandlerResponse α π → Bool
  | .okResults _ _ => true
  | .okEmpty _ _ _ => true
  | .validationError _ _ => false
  | .internalError => false

/-- The straight-line validation prefix of `searchProductsHandler`: reject an
absent, non-string or blank-after-trim `q`; default an absent or empty `page`
parameter to 1, else parse it, rejecting NaN and values below 1.  On success
yield the trimmed term and the page passed on to `searchProducts`; on failure
yield the offending field name and the rejected raw value. -/
def searchValidate (q pageParam : Option Str) :
    Except (Str × Option Str) (Str × Int) :=
  match q with
  | none => .error (("q".data), none)
  | some qs =>
    if qs = [] ∨ (jsTrim qs).length = 0 then .error (("q".data), some qs)
    else
      match (match pageParam with
             | none => some (1 : Int)
             | some ps => if ps = [] then some 1 else jsParseInt10 ps) with
      | none => .error (("page".data), pageParam)
      | some page =>
        if page < 1 then .error (("page".data), pageParam)
        else .ok (jsTrim qs, page)

/-- GET `/api/products/search` (controller `searchProductsHandler`): validate
`q` and `page` (via `searchValidate`, a faithful refactor of the inline
checks), call `searchProducts` — abstracted as `search`, which throws only
`ApiError` — and shape the response; a missing or empty `search_results`
yields the explicit empty payload with zero pagination. -/
def searchProductsHandler {α π : Type}
    (search : Str → Int → Option Str → Except ApiError (TargetSearchResponse α π))
    (q pageParam sort : Option Str) : SearchHandlerResponse α π :=
  match searchValidate q pageParam with
  | .error (field, rejected) => .validationError field rejected
  | .ok (searchTerm, page) =>
    match search searchTerm page sort with
    | .error _ => .internalError
    | .ok searchResults =>
      match searchResults.search_results with
      | none => .okEmpty page 0 0
      | some [] => .okEmpty page 0 0
      | some rs => .okResults rs searchResults.pagination

-- ============================================================================
-- Helper lemmas
-- ============================================================================

theorem getCachedValue_set_self {α : Type} (c : Cache α) (k : Str) (v : α)
    (t0 ttl t1 : Nat) (h : t1 ≤ t0 + ttl) :
    getCachedValue (setCachedValue c k v t0 ttl) k t1 = some v := by
  induction c with
  | nil => simp [setCachedValue, getCachedValue, h]
  | cons e rest ih =>
    obtain ⟨k', v', exp⟩ := e
    by_cases hk : k' = k
    · subst hk
      simp [setCachedValue, getCachedValue, h]
    · simp [setCachedValue, getCachedValue, hk, ih]

theorem mem_mapKeys_mapSet {α : Type} (m : List (Str × α)) (k k' : Str) (v : α) :
    k' ∈ mapKeys (mapSet m k v) ↔ k' = k ∨ k' ∈ mapKeys m := by
  induction m with
  | nil =>
    simp only [mapSet, mapKeys, List.map_cons, List.map_nil, List.mem_singleton,
      List.not_mem_nil, or_false]
  | cons e rest ih =>
    obtain ⟨k0, v0⟩ := e
    by_cases h : k0 = k
    · subst h
      simp only [mapSet, eq_self_iff_true, if_true, mapKeys, List.map_cons,
        List.mem_cons]
      tauto
    · simp only [mapSet, if_neg h, mapKeys, List.map_cons, List.mem_cons] at ih ⊢
      rw [ih]
      tauto

theorem mem_mapKeys_bulkInsert {α : Type} (m : List (Str × α)) (t : Str) (v : α)
    (k : Str) :
    k ∈ mapKeys (bulkInsert m t v)
      ↔ k = t ∨ canonicalNumericKey t = some k ∨ k ∈ mapKeys m := by
  unfold bulkInsert
  cases hc : canonicalNumericKey t with
  | none =>
    simp only [hc, mem_mapKeys_mapSet]
    constructor
    · rintro (h | h | h)
      · exact Or.inl h
      · exact Or.inl h
      · exact Or.inr (Or.inr h)
    · rintro (h | h | h)
      · exact Or.inl h
      · exact absurd h (by simp)
      · exact Or.inr (Or.inr h)
  | some ck =>
    simp only [hc, mem_mapKeys_mapSet, Option.some.injEq]
    constructor
    · rintro (h | h | h | h)
      · exact Or.inr (Or.inl h.symm)
      · exact Or.inl h
      · exact Or.inl h
      · exact Or.inr (Or.inr h)
    · rintro (h | h | h)
      · exact Or.inr (Or.inl h)
      · exact Or.inl h.symm
      · exact Or.inr (Or.inr (Or.inr h))

theorem mem_mapKeys_bulkBuild {α : Type} (rs : List (Str × Option α))
    (acc : List (Str × α)) (k : Str) :
    k ∈ mapKeys (bulkBuild acc rs)
      ↔ k ∈ mapKeys acc
        ∨ ∃ t v, (t, some v) ∈ rs ∧ (k = t ∨ canonicalNumericKey t = some k) := by
  induction rs generalizing acc with
  | nil => simp [bulkBuild]
  | cons e rest ih =>
    obtain ⟨t0, s0⟩ := e
    cases s0 with
    | none =>
      simp only [bulkBuild, ih, List.mem_cons, Prod.mk.injEq]
      constructor
      · rintro (h | ⟨t, v, hmem, hk⟩)
        · exact Or.inl h
        · exact Or.inr ⟨t, v, Or.inr hmem, hk⟩
      · rintro (h | ⟨t, v, ⟨h1, h2⟩ | hmem, hk⟩)
        · exact Or.inl h
        · exact absurd h2 (by simp)
        · exact Or.inr ⟨t, v, hmem, hk⟩
    | some v0 =>
      simp only [bulkBuild, ih, mem_mapKeys_bulkInsert, List.mem_cons, Prod.mk.injEq,
        Option.some.injEq]
      constructor
      · rintro ((h | h | h) | ⟨t, v, hmem, hk⟩)
        · exact Or.inr ⟨t0, v0, Or.inl ⟨rfl, rfl⟩, Or.inl h⟩
        · exact Or.inr ⟨t0, v0, Or.inl ⟨rfl, rfl⟩, Or.inr h⟩
        · exact Or.inl h
        · exact Or.inr ⟨t, v, Or.inr hmem, hk⟩
      · rintro (h | ⟨t, v, ⟨h1, h2⟩ | hmem, hk⟩)
        · exact Or.inl (Or.inr (Or.inr h))
        · subst h1
          rcases hk with hk | hk
          · exact Or.inl (Or.inl hk)
          · exact Or.inl (Or.inr (Or.inl hk))
        · exact Or.inr ⟨t, v, hmem, hk⟩

-- ============================================================================
-- Claims
-- ============================================================================

/-- C5: for every TCIN, zip code and options, and any two values of the
storeId argument, `checkStoreStock` behaves identically — same result, same
cache state, same upstream-call decision — and the upstream query parameters
are the fixed four (`api_key`, `type`, `tcin`, `store_stock_zipcode`); the
storeId argument is never transmitted upstream. -/
theorem c5_storeId_invariance {α : Type}
    (upstream : List (Str × Str) → Except JsError α) (apiKey tcin zipCode : Str)
    (storeId1 storeId2 : Option Str) (skipCache : Bool) (stockCache : Cache α)
    (now : Nat) :
    checkStoreStock upstream apiKey tcin zipCode storeId1 skipCache stockCache now
      = checkStoreStock upstream apiKey tcin zipCode storeId2 skipCache stockCache now
    ∧ storeStockParams apiKey tcin zipCode storeId1
        = storeStockParams apiKey tcin zipCode storeId2
    ∧ (storeStockParams apiKey tcin zipCode storeId1).map Prod.fst
        = [("api_key".data), ("type".data), ("tcin".data), ("store_stock_zipcode".data)] :=
  ⟨rfl, rfl, rfl⟩

/-- C8: the search cache key is not injective: the distinct logical queries
(term `a_page1`, page 2, no sort) and (term `a`, page 1, sort
`page2_default`) share one cache key, and a result cached by `searchProducts`
for the first query is returned for the second without an upstream call. -/
theorem c8_cache_key_collision :
    searchCacheKey ("a_page1".data) (jsPageOr1 (some 2)) none
      = searchCacheKey ("a".data) (jsPageOr1 (some 1)) (some ("page2_default".data))
    ∧ (("a_page1".data, (2 : Int), (none : Option Str))
        ≠ (("a".data), (1 : Int), some ("page2_default".data)))
    ∧ (searchProducts (fun _ => Except.ok (1 : Nat)) ("k".data) ("a".data) (some 1)
         (some ("page2_default".data)) false
         (searchProducts (fun _ => Except.ok (0 : Nat)) ("k".data) ("a_page1".data)
           (some 2) none false [] 0).2.1 0).1 = Except.ok 0
    ∧ (searchProducts (fun _ => Except.ok (1 : Nat)) ("k".data) ("a".data) (some 1)
         (some ("page2_default".data)) false
         (searchProducts (fun _ => Except.ok (0 : Nat)) ("k".data) ("a_page1".data)
           (some 2) none false [] 0).2.1 0).2.2 = false :=
  ⟨by decide, by decide, rfl, rfl⟩

/-- C3 counterexample: `123456789` is a well-formed TCIN accepted by
`isValidTcin`, but the regex captures exactly eight digits, so the roundtrip
through `generateProductUrl` returns `12345678`, not `123456789`. -/
theorem c3_counterexample :
    isValidTcin ("123456789".data) = true
    ∧ extractTcinFromUrl (generateProductUrl ("123456789".data))
        = some ("12345678".data)
    ∧ ("12345678".data) ≠ ("123456789".data) := by
  refine ⟨by decide, by decide, by decide⟩

/-- C3 (amended): for every 8-digit TCIN `t`,
`extractTcinFromUrl (generateProductUrl t) = t`; the spec's two concrete
examples also hold. -/
theorem c3_amended_roundtrip (t : Str) (h8 : t.length = 8)
    (hd : t.all Char.isDigit = true) :
    extractTcinFromUrl (generateProductUrl t) = some t
    ∧ extractTcinFromUrl ("https://www.target.com/p/product-name/-/A-78025470".data)
        = some ("78025470".data)
    ∧ generateProductUrl ("78025470".data)
        = ("https://www.target.com/p/-/A-78025470".data) := by
  refine ⟨?_, by decide, by decide⟩
  rcases t with _ | ⟨a, t⟩; · simp at h8
  rcases t with _ | ⟨b, t⟩; · simp at h8
  rcases t with _ | ⟨c, t⟩; · simp at h8
  rcases t with _ | ⟨d, t⟩; · simp at h8
  rcases t with _ | ⟨e, t⟩; · simp at h8
  rcases t with _ | ⟨f, t⟩; · simp at h8
  rcases t with _ | ⟨g, t⟩; · simp at h8
  rcases t with _ | ⟨h, t⟩; · simp at h8
  rcases t with _ | ⟨i, t⟩
  · simp only [List.all_cons, List.all_nil, Bool.and_true, Bool.and_eq_true] at hd
    have hpre : ("https://www.target.com/p/-/A-".data)
        = ['h','t','t','p','s',':','/','/','w','w','w','.','t','a','r','g','e','t',
           '.','c','o','m','/','p','/','-','/','A','-'] := by decide
    simp only [generateProductUrl, hpre, List.cons_append, List.nil_append]
    simp +decide [extractTcinFromUrl, matchTcinAt, hd.1, hd.2.1, hd.2.2.1,
      hd.2.2.2.1, hd.2.2.2.2.1, hd.2.2.2.2.2.1, hd.2.2.2.2.2.2.1, hd.2.2.2.2.2.2.2]
  · simp at h8

/-- C3 witness: the amended roundtrip evaluated at the concrete 8-digit TCIN
78025470. -/
theorem c3_witness :
    (("78025470".data) : Str).length = 8
    ∧ ("78025470".data).all Char.isDigit = true
    ∧ extractTcinFromUrl (generateProductUrl ("78025470".data))
        = some ("78025470".data) :=
  ⟨by decide, by decide,
    (c3_amended_roundtrip ("78025470".data) (by decide) (by decide)).1⟩

/-- C2 counterexample: an upstream HTTP 500 response with no recognized body
error code is classified with code `500` (the numeric status), not
`NETWORK_ERROR`: the source passes `status || 'NETWORK_ERROR'` as the code. -/
theorem c2_counterexample :
    (handleApiError (JsError.axios ("Request failed with status code 500".data)
        (some ⟨500, none, none⟩)) none).code = ApiCode.httpStatus 500
    ∧ ApiCode.httpStatus 500 ≠ ApiCode.named ("NETWORK_ERROR".data) := by
  refine ⟨by decide, by decide⟩

/-- C2 (amended): for an upstream HTTP error response whose status is not
404, 429, 401, 403 (and not 0) and whose body carries no recognized error
code, `handleApiError` returns an error whose code is the original numeric
status and whose message and `originalError` detail carry the original
message; the code `NETWORK_ERROR` arises exactly when the error carries no
response at all. -/
theorem c2_amended_status_as_code (msg : Str) (ctx : Option Str) (s : Nat)
    (ec ra : Option Str) (h404 : s ≠ 404) (h429 : s ≠ 429) (h401 : s ≠ 401)
    (h403 : s ≠ 403) (h0 : s ≠ 0)
    (hpnf : ec ≠ some ("PRODUCT_NOT_FOUND".data))
    (hrle : ec ≠ some ("RATE_LIMIT_EXCEEDED".data)) :
    handleApiError (JsError.axios msg (some ⟨s, ec, ra⟩)) ctx
      = { message := msg, code := ApiCode.httpStatus s, context := ctx,
          status := none, retryAfter := none, originalError := some msg }
    ∧ handleApiError (JsError.axios msg none) ctx
      = { message := msg, code := ApiCode.named ("NETWORK_ERROR".data),
          context := ctx, status := none, retryAfter := none,
          originalError := some msg } := by
  constructor
  · simp [handleApiError, h404, h429, h401, h403, h0, hpnf, hrle]
  · simp [handleApiError]

/-- C2 witness: the amended classification evaluated at a concrete status-500
axios error. -/
theorem c2_witness :
    (500 : Nat) ≠ 404
    ∧ handleApiError (JsError.axios ("boom".data) (some ⟨500, none, none⟩)) none
      = { message := ("boom".data), code := ApiCode.httpStatus 500, context := none,
          status := none, retryAfter := none, originalError := some ("boom".data) } :=
  ⟨by decide,
    (c2_amended_status_as_code ("boom".data) none 500 none none (by decide) (by decide)
      (by decide) (by decide) (by decide) (by decide) (by decide)).1⟩

/-- C1 counterexample: with a valid TCIN, an upstream 404 makes the service
throw an `ApiError` correctly classified as `PRODUCT_NOT_FOUND`, but the
controller's catch block maps every thrown error other than
`ValidationError` to HTTP 500 `INTERNAL_ERROR` — not to HTTP 404. -/
theorem c1_counterexample :
    isValidTcin ("78025470".data) = true
    ∧ (handleApiError (JsError.axios ("Request failed with status code 404".data)
         (some ⟨404, none, none⟩)) (some ("TCIN 78025470".data))).code
        = ApiCode.named ("PRODUCT_NOT_FOUND".data)
    ∧ getProductByTcinHandler (α := Nat)
        (fun _ => Except.error (handleApiError (JsError.axios
          ("Request failed with status code 404".data) (some ⟨404, none, none⟩))
          (some ("TCIN 78025470".data))))
        (some ("78025470".data)) = ProductHandlerResponse.internalError
    ∧ productStatus (ProductHandlerResponse.internalError (α := Nat)) = 500 := by
  refine ⟨by decide, by decide, by decide, rfl⟩

/-- C1 (amended): an upstream 404 is classified as an `ApiError` with code
`PRODUCT_NOT_FOUND` by `handleApiError`, but for every validated identifier
whose service call throws an `ApiError`, both product-lookup controllers
respond HTTP 500 (`internalError`); the controllers respond 404 only on a
successful upstream body lacking `product`. -/
theorem c1_amended_upstream404_gives_500 (msg : Str) (ec ra : Option Str)
    (ctx : Option Str) {α : Type}
    (fetchT fetchU : Str → Except ApiError (TargetProductFullResponse α))
    (t g : Str) (e1 e2 : ApiError) (ht : isValidTcin t = true)
    (hg : isValidGtin g = true) (h1 : fetchT t = Except.error e1)
    (h2 : fetchU g = Except.error e2) :
    (handleApiError (JsError.axios msg (some ⟨404, ec, ra⟩)) ctx).code
      = ApiCode.named ("PRODUCT_NOT_FOUND".data)
    ∧ getProductByTcinHandler fetchT (some t) = ProductHandlerResponse.internalError
    ∧ getProductByUpcHandler fetchU (some g) = ProductHandlerResponse.internalError
    ∧ productStatus (ProductHandlerResponse.internalError (α := α)) = 500 := by
  refine ⟨?_, ?_, ?_, rfl⟩
  · simp [handleApiError]
  · have hne : ¬(t = [] ∨ isValidTcin t = false) := by
      rintro (h' | h')
      · subst h'
        simp [isValidTcin] at ht
      · simp [ht] at h'
    simp [getProductByTcinHandler, hne, h1]
  · have hne : ¬(g = [] ∨ isValidGtin g = false) := by
      rintro (h' | h')
      · subst h'
        simp [isValidGtin] at hg
      · simp [hg] at h'
    simp [getProductByUpcHandler, hne, h2]

/-- C1 witness: the amended behavior evaluated at concrete identifiers with a
concretely failing service call. -/
theorem c1_witness :
    isValidTcin ("78025470".data) = true
    ∧ isValidGtin ("036000291452".data) = true
    ∧ getProductByTcinHandler (α := Nat)
        (fun _ => Except.error (handleApiError (JsError.other ("x".data)) none))
        (some ("78025470".data)) = ProductHandlerResponse.internalError :=
  ⟨by decide, by decide,
    (c1_amended_upstream404_gives_500 ("m".data) none none none
      (fun _ => Except.error (handleApiError (JsError.other ("x".data)) none))
      (fun _ => Except.error (handleApiError (JsError.other ("x".data)) none))
      ("78025470".data) ("036000291452".data)
      (handleApiError (JsError.other ("x".data)) none)
      (handleApiError (JsError.other ("x".data)) none)
      (by decide) (by decide) rfl rfl).2.1⟩

/-- C4 counterexample: in a bulk request over `['01234567', '1234567']` where
`01234567` succeeds and `1234567` fails, the failed identifier is NOT absent
from the result mapping: it enters as the canonical decimal form of the
successful one (`Number('01234567').toString()`). -/
theorem c4_counterexample :
    (fun t => if t = ("01234567".data) then some (0 : Nat) else none)
        (("1234567".data)) = none
    ∧ ("1234567".data) ∈ mapKeys (checkBulkStoreStock
        (fun t => if t = ("01234567".data) then some (0 : Nat) else none)
        [("01234567".data), ("1234567".data)]) := by
  refine ⟨by decide, by decide⟩

/-- C4 (amended): the bulk operations never throw (they are total), and when
every requested identifier equals its own canonical decimal form (no leading
zeros), the keys of the returned mapping are exactly the identifiers whose
single-item operation succeeded — in particular any failing identifiers are
absent; without that proviso a failed identifier can appear as the canonical
form of a successful one. -/
theorem c4_amended_bulk_keys {α β : Type} (itemS : Str → Option α)
    (itemP : Str → Option β) (tcins : List Str)
    (hcanon : ∀ t ∈ tcins, canonicalNumericKey t = some t) :
    (∀ k, k ∈ mapKeys (checkBulkStoreStock itemS tcins)
       ↔ k ∈ tcins ∧ (itemS k).isSome = true)
    ∧ (∀ k, k ∈ mapKeys (getBulkProducts itemP tcins)
       ↔ k ∈ tcins ∧ (itemP k).isSome = true) := by
  have main : ∀ {γ : Type} (item : Str → Option γ) (k : Str),
      k ∈ mapKeys (bulkBuild [] (tcins.map (fun t => (t, item t))))
        ↔ k ∈ tcins ∧ (item k).isSome = true := by
    intro γ item k
    rw [mem_mapKeys_bulkBuild]
    constructor
    · rintro (h | ⟨t, v, hmem, hk⟩)
      · simp [mapKeys] at h
      · simp only [List.mem_map] at hmem
        obtain ⟨t', ht', heq⟩ := hmem
        rw [Prod.mk.injEq] at heq
        obtain ⟨ht0, hv⟩ := heq
        subst ht0
        rcases hk with rfl | hcan
        · exact ⟨ht', by simp [hv]⟩
        · have hself := hcanon t' ht'
          rw [hself] at hcan
          injection hcan with h'
          subst h'
          exact ⟨ht', by simp [hv]⟩
    · rintro ⟨hk, hsome⟩
      obtain ⟨v, hv⟩ := Option.isSome_iff_exists.mp hsome
      refine Or.inr ⟨k, v, ?_, Or.inl rfl⟩
      simp only [List.mem_map]
      exact ⟨k, hk, by rw [hv]⟩
  exact ⟨fun k => main itemS k, fun k => main itemP k⟩

/-- C4 witness: the amended key characterization evaluated at a concrete
one-element bulk request whose identifier has no leading zero. -/
theorem c4_witness :
    (∀ t ∈ [("12345678".data)], canonicalNumericKey t = some t)
    ∧ (("12345678".data) ∈ mapKeys (checkBulkStoreStock
          (fun _ => some (0 : Nat)) [("12345678".data)])
        ↔ ("12345678".data) ∈ [("12345678".data)]
          ∧ ((fun _ => some (0 : Nat)) (("12345678".data) : Str)).isSome = true) :=
  ⟨by decide,
    ((c4_amended_bulk_keys (fun _ => some (0 : Nat)) (fun _ => some (0 : Nat))
      [("12345678".data)] (by decide)).1) ("12345678".data)⟩

/-- C6: for every valid TCIN whose first (cache-missing) call succeeds, a
second call without `skipCache` at any time within the cached entry's TTL
returns the identical payload stored by the first call and issues no second
upstream request. -/
theorem c6_cache_hit_within_ttl {α : Type}
    (upstream : List (Str × Str) → Except JsError α) (apiKey tcin : Str) (v : α)
    (productCache : Cache α) (t0 t1 : Nat) (hvalid : isValidTcin tcin = true)
    (hmiss : getCachedValue productCache (generateProductCacheKey tcin) t0 = none)
    (hup : upstream (productParams apiKey tcin) = Except.ok v)
    (httl : t1 ≤ t0 + productCacheTTL) :
    (getProductByTcin upstream apiKey tcin false productCache t0).1 = Except.ok v
    ∧ (getProductByTcin upstream apiKey tcin false productCache t0).2.2 = true
    ∧ (getProductByTcin upstream apiKey tcin false
        (getProductByTcin upstream apiKey tcin false productCache t0).2.1 t1).1
      = Except.ok v
    ∧ (getProductByTcin upstream apiKey tcin false
        (getProductByTcin upstream apiKey tcin false productCache t0).2.1 t1).2.2
      = false := by
  have hfirst : getProductByTcin upstream apiKey tcin false productCache t0
      = (Except.ok v,
         setCachedValue productCache (generateProductCacheKey tcin) v t0 productCacheTTL,
         true) := by
    simp [getProductByTcin, hmiss, hup]
  have hsecond : getProductByTcin upstream apiKey tcin false
      (setCachedValue productCache (generateProductCacheKey tcin) v t0 productCacheTTL) t1
      = (Except.ok v,
         setCachedValue productCache (generateProductCacheKey tcin) v t0 productCacheTTL,
         false) := by
    simp [getProductByTcin, getCachedValue_set_self _ _ _ _ _ _ httl]
  rw [hfirst, hsecond]
  exact ⟨rfl, rfl, rfl, rfl⟩

/-- C6 witness: the cached second read evaluated on a concrete upstream and
an initially empty cache. -/
theorem c6_witness :
    isValidTcin ("78025470".data) = true
    ∧ getCachedValue ([] : Cache Nat) (generateProductCacheKey ("78025470".data)) 0
        = none
    ∧ (100 : Nat) ≤ 0 + productCacheTTL
    ∧ (getProductByTcin (fun _ => Except.ok (5 : Nat)) ("k".data) ("78025470".data)
        false
        (getProductByTcin (fun _ => Except.ok (5 : Nat)) ("k".data) ("78025470".data)
          false [] 0).2.1 100).1 = Except.ok 5 :=
  ⟨by decide, rfl, by decide,
    (c6_cache_hit_within_ttl (fun _ => Except.ok (5 : Nat)) ("k".data)
      ("78025470".data) 5 [] 0 100 (by decide) rfl rfl (by decide)).2.2.1⟩

/-- C9: each product-lookup controller responds 404 `PRODUCT_NOT_FOUND`
exactly when its identifier validates and the service call succeeds with a
body lacking the `product` field; in particular no thrown error produces a
404 from these controllers. -/
theorem c9_notFound_characterization {α : Type}
    (fetchT fetchU : Str → Except ApiError (TargetProductFullResponse α))
    (tcin gtin : Option Str) :
    (getProductByTcinHandler fetchT tcin = ProductHandlerResponse.notFound
      ↔ ∃ t r, tcin = some t ∧ isValidTcin t = true
          ∧ fetchT t = Except.ok r ∧ r.product = none)
    ∧ (getProductByUpcHandler fetchU gtin = ProductHandlerResponse.notFound
      ↔ ∃ g r, gtin = some g ∧ isValidGtin g = true
          ∧ fetchU g = Except.ok r ∧ r.product = none) := by
  constructor
  · cases tcin with
    | none => simp [getProductByTcinHandler]
    | some t =>
      simp only [getProductByTcinHandler]
      by_cases hv : t = [] ∨ isValidTcin t = false
      · rw [if_pos hv]
        have hfalse : ¬(isValidTcin t = true) := by
          rcases hv with h' | h'
          · subst h'
            decide
          · simp [h']
        constructor
        · intro h
          simp at h
        · rintro ⟨t', r, ht', hval, -, -⟩
          injection ht' with h'
          subst h'
          exact absurd hval hfalse
      · rw [if_neg hv]
        have hvt : isValidTcin t = true := by
          rcases not_or.mp hv with ⟨-, h2⟩
          cases h : isValidTcin t
          · exact absurd h h2
          · rfl
        cases hf : fetchT t with
        | error e =>
          constructor
          · intro h
            simp at h
          · rintro ⟨t', r, ht', -, hok, -⟩
            injection ht' with h'
            subst h'
            rw [hf] at hok
            exact absurd hok (by simp)
        | ok r =>
          cases hp : r.product with
          | none =>
            constructor
            · intro _
              exact ⟨t, r, rfl, hvt, hf, hp⟩
            · intro _
              simp [hp]
          | some p =>
            constructor
            · intro hcontra
              simp [hp] at hcontra
            · rintro ⟨t', r', ht', -, hok, hp'⟩
              injection ht' with h'
              subst h'
              rw [hf] at hok
              injection hok with h''
              subst h''
              rw [hp] at hp'
              exact absurd hp' (by simp)
  · cases gtin with
    | none => simp [getProductByUpcHandler]
    | some g =>
      simp only [getProductByUpcHandler]
      by_cases hv : g = [] ∨ isValidGtin g = false
      · rw [if_pos hv]
        have hfalse : ¬(isValidGtin g = true) := by
          rcases hv with h' | h'
          · subst h'
            decide
          · simp [h']
        constructor
        · intro h
          simp at h
        · rintro ⟨g', r, hg', hval, -, -⟩
          injection hg' with h'
          subst h'
          exact absurd hval hfalse
      · rw [if_neg hv]
        have hvg : isValidGtin g = true := by
          rcases not_or.mp hv with ⟨-, h2⟩
          cases h : isValidGtin g
          · exact absurd h h2
          · rfl
        cases hf : fetchU g with
        | error e =>
          constructor
          · intro h
            simp at h
          · rintro ⟨g', r, hg', -, hok, -⟩
            injection hg' with h'
            subst h'
            rw [hf] at hok
            exact absurd hok (by simp)
        | ok r =>
          cases hp : r.product with
          | none =>
            constructor
            · intro _
              exact ⟨g, r, rfl, hvg, hf, hp⟩
            · intro _
              simp [hp]
          | some p =>
            constructor
            · intro hcontra
              simp [hp] at hcontra
            · rintro ⟨g', r', hg', -, hok, hp'⟩
              injection hg' with h'
              subst h'
              rw [hf] at hok
              injection hok with h''
              subst h''
              rw [hp] at hp'
              exact absurd hp' (by simp)

/-- C7: for every search request that validates (to a trimmed term and a
page) and whose upstream call succeeds with absent or empty
`search_results`, the controller responds 200 with `success: true`, the
explicit empty-results payload, and pagination `current_page = page`,
`total_pages = 0`, `total_results = 0`. -/
theorem c7_empty_results_ok {α π : Type}
    (search : Str → Int → Option Str → Except ApiError (TargetSearchResponse α π))
    (q pageParam sort : Option Str) (term : Str) (page : Int)
    (resp : TargetSearchResponse α π)
    (hval : searchValidate q pageParam = Except.ok (term, page))
    (hs : search term page sort = Except.ok resp)
    (hres : resp.search_results = none ∨ resp.search_results = some []) :
    searchProductsHandler search q pageParam sort
      = SearchHandlerResponse.okEmpty page 0 0
    ∧ searchStatus (SearchHandlerResponse.okEmpty (α := α) (π := π) page 0 0) = 200
    ∧ searchSuccess (SearchHandlerResponse.okEmpty (α := α) (π := π) page 0 0)
        = true := by
  refine ⟨?_, rfl, rfl⟩
  simp only [searchProductsHandler, hval, hs]
  rcases hres with h | h <;> simp [h]

/-- C7 witness: the empty-results response evaluated at a concrete request
and a concrete upstream returning an empty result list. -/
theorem c7_witness :
    searchValidate (some ("pens".data)) none = Except.ok ((("pens".data) : Str), (1 : Int))
    ∧ searchProductsHandler (α := Nat) (π := Nat)
        (fun _ _ _ => Except.ok ⟨some [], none⟩) (some ("pens".data)) none none
      = SearchHandlerResponse.okEmpty 1 0 0 :=
  ⟨rfl,
    (c7_empty_results_ok (fun _ _ _ => Except.ok ⟨some [], none⟩)
      (some ("pens".data)) none none ("pens".data) 1 ⟨some [], none⟩ rfl rfl
      (Or.inr rfl)).1⟩

/-- C10: two search requests whose `q` values trim to the same non-blank term
and agree on `page` and `sort` validate identically — the controller invokes
`searchProducts` with the same trimmed term and page — and hence produce
identical responses for every search function (in particular the same
upstream query parameters and the same cache key inside `searchProducts`). -/
theorem c10_trim_invariance {α π : Type} (q1 q2 : Str) (pageParam sort : Option Str)
    (h : jsTrim q1 = jsTrim q2) (hne : (jsTrim q1).length ≠ 0) :
    searchValidate (some q1) pageParam = searchValidate (some q2) pageParam
    ∧ ∀ (search : Str → Int → Option Str →
          Except ApiError (TargetSearchResponse α π)),
        searchProductsHandler search (some q1) pageParam sort
          = searchProductsHandler search (some q2) pageParam sort := by
  have h1 : ¬(q1 = [] ∨ (jsTrim q1).length = 0) := by
    rintro (h' | h')
    · subst h'
      exact hne rfl
    · exact hne h'
  have h2 : ¬(q2 = [] ∨ (jsTrim q2).length = 0) := by
    rw [h] at hne
    rintro (h' | h')
    · subst h'
      exact hne rfl
    · exact hne h'
  have hval : searchValidate (some q1) pageParam = searchValidate (some q2) pageParam := by
    simp only [searchValidate]
    rw [if_neg h1, if_neg h2, h]
  exact ⟨hval, fun search => by simp only [searchProductsHandler, hval]⟩

/-- C10 witness: the trim invariance evaluated at the concrete queries
`"  pens "` and `"pens"`. -/
theorem c10_witness :
    jsTrim ("  pens ".data) = jsTrim ("pens".data)
    ∧ (jsTrim ("  pens ".data)).length ≠ 0
    ∧ searchValidate (some ("  pens ".data)) none
        = searchValidate (some ("pens".data)) none :=
  ⟨by decide, by decide,
    (c10_trim_invariance (α := Nat) (π := Nat) ("  pens ".data) ("pens".data)
      none none (by decide) (by decide)).1⟩

end TargetApi
